import Mathlib

/-
Verification development for the trigger configuration model of the
pyjoulescope_ui repository.

The embedding below is a shallow model of the two trigger sources:
  joulescope_ui/widgets/waveform/trigger.py   (SiValue, Section, condition
      and action widgets, Trigger, TRIGGER_SETTINGS_DEFAULT)
  joulescope_ui/widgets/trigger/trigger_widget.py   (TriggerWidget status
      button handling and the digital signal helper)

Modelling conventions:
  - Python numbers are modelled as exact rationals.  The decisive effects in
    every claim (decimal display rounding, range clamping, selection logic,
    missing dictionary keys) are orders of magnitude larger than double
    rounding noise, which is therefore not modelled.
  - Fallible Python code (KeyError, TypeError, ValueError, IndexError,
    AttributeError) is modelled with Except Err.
  - Qt widget state is modelled explicitly: a QDoubleSpinBox stores a value
    rounded to its configured decimals and clamped to its range; a QComboBox
    stores an item list and a current index (minus one meaning no selection)
    and emits its change slot only when the index actually changes and
    signals are not blocked.  Places where the sources block signals are
    modelled by simply not invoking the slot.
-/

attribute [local semireducible] Rat.add Rat.sub Rat.mul Rat.inv Rat.ofScientific

namespace PyJouleTrig

/-- Python exceptions that the modelled code paths can raise. -/
inductive Err where
  | keyError (key : String)
  | typeError (msg : String)
  | valueError (msg : String)
  | indexError
  | attributeError (msg : String)
deriving DecidableEq

/-- Values appearing in a trigger settings document: strings, numbers,
booleans, nested string keyed dictionaries, and the Python None value. -/
inductive SVal where
  | s (v : String)
  | q (v : ℚ)
  | b (v : Bool)
  | d (entries : List (String × SVal))
  | pynone

/-- First binding of a key in an association list, as a Python dict lookup. -/
def dict_find (es : List (String × SVal)) (key : String) : Option SVal :=
  match es with
  | [] => none
  | (k, v) :: rest => if k = key then some v else dict_find rest key

/-- Python subscription x[key]: raises KeyError when the key is missing. -/
def dict_get (x : SVal) (key : String) : Except Err SVal :=
  match x with
  | .d es =>
    match dict_find es key with
    | some v => .ok v
    | none => .error (.keyError key)
  | _ => .error (.typeError "object is not subscriptable")

/-- Python x.get(key, dflt): missing keys fall back to the given default. -/
def dict_get_default (x : SVal) (key : String) (dflt : SVal) : SVal :=
  match x with
  | .d es => (dict_find es key).getD dflt
  | _ => dflt

/-- Python x.get(key): missing keys fall back to None. -/
def sv_get (x : SVal) (key : String) : SVal :=
  dict_get_default x key .pynone

/-- Python truthiness of a settings value, as used by bool(...) calls. -/
def truthy : SVal → Bool
  | .s v => !(v == "")
  | .q v => if v = 0 then false else true
  | .b v => v
  | .d es => !es.isEmpty
  | .pynone => false

/-- Coercion of a settings value to a string; non strings raise TypeError. -/
def as_str : SVal → Except Err String
  | .s v => .ok v
  | _ => .error (.typeError "expected a string")

/-- Coercion of a settings value to a number; Python booleans are integers. -/
def as_num : SVal → Except Err ℚ
  | .q v => .ok v
  | .b v => .ok (if v then 1 else 0)
  | _ => .error (.typeError "expected a number")

/-- Coercion of a settings value to a Python int. -/
def as_int : SVal → Except Err Int
  | .q v => if v.den = 1 then .ok v.num else .error (.typeError "expected an integer")
  | .b v => .ok (if v then 1 else 0)
  | _ => .error (.typeError "expected an integer")

/-- Python dict item assignment s[key] = v for a key not yet present
(the getters of the sources only ever add fresh keys). -/
def dict_append (x : SVal) (key : String) (v : SVal) : Except Err SVal :=
  match x with
  | .d es => .ok (.d (es ++ [(key, v)]))
  | _ => .error (.typeError "object does not support item assignment")

/-- Unit scale factor of one unit choice: either a plain number or the
sentinel string period from trigger.py line 47, meaning one sample period. -/
inductive Scale where
  | period
  | num (factor : ℚ)
deriving DecidableEq

/-- Shape of the units entry of a catalog signal: absent (range signals),
a flat list of (label, scale) choices, or a dictionary of such lists keyed
by a units system name (energy and charge). -/
inductive UnitsSpec where
  | absent
  | flat (choices : List (String × Scale))
  | keyed (tables : List (String × List (String × Scale)))
deriving DecidableEq

/-- One entry of the SIGNALS catalog of trigger.py lines 44 to 101. -/
structure SignalDef where
  units : UnitsSpec
  default_value : ℚ
  default_index : Option Nat
  range : Option (ℚ × ℚ × ℚ)
  float_digits : Option Nat
deriving DecidableEq

/-- Unit choices of the time signal, trigger.py lines 46 to 54. -/
def time_units : List (String × Scale) :=
  [("samples", .period),
   ("microseconds (µs)", .num 1e-6),
   ("milliseconds (ms)", .num 1e-3),
   ("seconds (s)", .num 1),
   ("minutes (m)", .num 60),
   ("hours (h)", .num 3600),
   ("days (d)", .num 86400)]

/-- Unit choices of the current signal, trigger.py line 58. -/
def current_units : List (String × Scale) :=
  [("nA", .num 1e-9), ("µA", .num 1e-6), ("mA", .num 1e-3), ("A", .num 1)]

/-- Unit choices of the voltage signal, trigger.py line 62. -/
def voltage_units : List (String × Scale) :=
  [("mV", .num 1e-3), ("V", .num 1)]

/-- Unit choices of the power signal, trigger.py line 66. -/
def power_units : List (String × Scale) :=
  [("nW", .num 1e-9), ("µW", .num 1e-6), ("mW", .num 1e-3), ("W", .num 1)]

/-- Joule unit table of the energy signal, trigger.py line 71. -/
def energy_units_J : List (String × Scale) :=
  [("nJ", .num 1e-9), ("µJ", .num 1e-6), ("mJ", .num 1e-3), ("J", .num 1)]

/-- Watt hour unit table of the energy signal, trigger.py line 72. -/
def energy_units_Wh : List (String × Scale) :=
  [("nWh", .num (1e-9 * 3600)), ("µWh", .num (1e-6 * 3600)),
   ("mWh", .num (1e-3 * 3600)), ("Wh", .num 3600)]

/-- Coulomb unit table of the charge signal, trigger.py line 79. -/
def charge_units_C : List (String × Scale) :=
  [("nC", .num 1e-9), ("µC", .num 1e-6), ("mC", .num 1e-3), ("C", .num 1)]

/-- Ampere hour unit table of the charge signal, trigger.py lines 80 to 81. -/
def charge_units_Ah : List (String × Scale) :=
  [("pAh", .num (1e-12 * 3600)), ("nAh", .num (1e-9 * 3600)),
   ("µAh", .num (1e-6 * 3600)), ("mAh", .num (1e-3 * 3600)), ("Ah", .num 3600)]

/-- Signal catalog SIGNALS of trigger.py lines 44 to 101. -/
def SIGNALS : List (String × SignalDef) :=
  [("time", { units := .flat time_units, default_value := 0.5,
              default_index := none, range := none, float_digits := none }),
   ("current", { units := .flat current_units, default_value := 1,
                 default_index := none, range := none, float_digits := none }),
   ("voltage", { units := .flat voltage_units, default_value := 1,
                 default_index := none, range := none, float_digits := none }),
   ("power", { units := .flat power_units, default_value := 1,
               default_index := none, range := none, float_digits := none }),
   ("energy", { units := .keyed [("J", energy_units_J), ("Wh", energy_units_Wh)],
                default_value := 1, default_index := some 3,
                range := none, float_digits := none }),
   ("charge", { units := .keyed [("C", charge_units_C), ("Ah", charge_units_Ah)],
                default_value := 1, default_index := some 3,
                range := none, float_digits := none }),
   ("current_range", { units := .absent, default_value := 1, default_index := none,
                       range := some (0, 7, 1), float_digits := some 0 }),
   ("current_lsb", { units := .absent, default_value := 1, default_index := none,
                     range := some (0, 1, 1), float_digits := some 0 }),
   ("voltage_lsb", { units := .absent, default_value := 1, default_index := none,
                     range := some (0, 1, 1), float_digits := some 0 })]

/-- Catalog lookup SIGNALS[name]. -/
def get_signal (name : String) : Option SignalDef :=
  let rec go : List (String × SignalDef) → Option SignalDef
    | [] => none
    | (k, v) :: rest => if k = name then some v else go rest
  go SIGNALS

/-- Signals offered by an edge condition, trigger.py line 106. -/
def EDGE_SIGNALS : List String :=
  ["current", "voltage", "power", "current_range", "current_lsb", "voltage_lsb"]

/-- Signals offered by a window condition, trigger.py line 107. -/
def WINDOW_SIGNALS : List String := ["energy", "charge"]

/-- Text of a combo box entry at an index; empty when nothing is selected. -/
def combo_text (items : List String) (index : Int) : String :=
  if 0 ≤ index then (items.get? index.toNat).getD "" else ""

/-- QComboBox.findText: index of the matching item, or minus one. -/
def find_text (items : List String) (t : String) : Int :=
  match items.findIdx? (fun x => x == t) with
  | some i => (i : Int)
  | none => -1

/-- Python list subscription with negative index wrap around; returns the
normalized index together with the element, or none (IndexError). -/
def py_index {α : Type} (l : List α) (index : Int) : Option (Nat × α) :=
  if 0 ≤ index then (l.get? index.toNat).map (fun a => (index.toNat, a))
  else if (-index).toNat ≤ l.length then
    let j := l.length - (-index).toNat
    (l.get? j).map (fun a => (j, a))
  else none

/-- Rounding to d decimal places, half away from zero rounded up, as done by
QDoubleSpinBox for a value assigned through setValue. -/
def round_dec (x : ℚ) (d : Nat) : ℚ :=
  ((⌊x * 10 ^ d + 1 / 2⌋ : ℤ) : ℚ) / 10 ^ d

/-- Clamp of a value to a closed interval, as done by QAbstractSpinBox. -/
def clampQ (lo hi x : ℚ) : ℚ := max lo (min hi x)

/-- State of a QDoubleSpinBox: stored value, range, single step, decimals. -/
structure SpinState where
  value : ℚ
  lo : ℚ
  hi : ℚ
  step : ℚ
  decimals : Nat
deriving DecidableEq

/-- QDoubleSpinBox.setValue: the stored value is rounded to the configured
decimals and clamped to the configured range. -/
def spin_set_value (sp : SpinState) (v : ℚ) : SpinState :=
  { sp with value := clampQ sp.lo sp.hi (round_dec v sp.decimals) }

/-- QDoubleSpinBox.setRange: the current value is clamped to the new range. -/
def spin_set_range (sp : SpinState) (lo hi : ℚ) : SpinState :=
  { sp with lo := lo, hi := hi, value := clampQ lo hi sp.value }

/-- QDoubleSpinBox.setDecimals: the current value is rounded to the new
precision and kept inside the range. -/
def spin_set_decimals (sp : SpinState) (d : Nat) : SpinState :=
  { sp with decimals := d, value := clampQ sp.lo sp.hi (round_dec sp.value d) }

/-- State of one SiValue widget, trigger.py lines 191 to 298: the selected
signal name, the constructor arguments sampling_frequency and units, the
value spin box, and the units combo box (items, index, enabled flag, and
the remembered previous index). -/
structure SiValueState where
  signal : Option String
  sampling_frequency : Option ℚ
  units_pref : List (String × String)
  spin : SpinState
  units_items : List String
  units_index : Int
  units_enabled : Bool
  units_prev : Option Int
deriving DecidableEq

/-- SiValue._units_enum, trigger.py lines 225 to 234: None when no signal
is set; otherwise the property first subscripts self._signal[units] inside
the isinstance test on line 229, BEFORE the get fallback of line 234 can
run, so a catalog entry without a units key (current_range, current_lsb,
voltage_lsb) raises KeyError for the key units.  For a keyed units table
the table chosen by the units constructor argument is returned, a missing
key raising KeyError; for a flat table the isinstance test fails and the
get fallback returns the same table.  The get fallback therefore never
yields None in practice. -/
def units_enum (st : SiValueState) : Except Err (Option (List (String × Scale))) :=
  match st.signal with
  | none => .ok none
  | some name =>
    match get_signal name with
    | none => .error (.keyError name)
    | some sd =>
      match sd.units with
      | .absent => .error (.keyError "units")
      | .flat us => .ok (some us)
      | .keyed tables =>
        match (st.units_pref.lookup name) with
        | none => .error (.keyError name)
        | some key =>
          let rec go : List (String × List (String × Scale)) → Except Err (Option (List (String × Scale)))
            | [] => .error (.keyError key)
            | (k, v) :: rest => if k = key then .ok (some v) else go rest
          go tables

/-- SiValue._units_scale, trigger.py lines 236 to 243: scale factor of the
unit at the given combo box index; 1 without units; the period sentinel is
1 / sampling_frequency and raises TypeError when no sampling frequency was
supplied by the caller. -/
def units_scale (st : SiValueState) (index : Int) : Except Err ℚ :=
  match units_enum st with
  | .error e => .error e
  | .ok none => .ok 1
  | .ok (some us) =>
    match py_index us index with
    | none => .error .indexError
    | some (_, (_, sc)) =>
      match sc with
      | .num g => .ok g
      | .period =>
        match st.sampling_frequency with
        | some f => .ok (1 / f)
        | none => .error (.typeError "unsupported operand types for division: int and NoneType")

/-- SiValue._value_from_index, trigger.py lines 245 to 247. -/
def value_from_index (st : SiValueState) (index : Int) : Except Err ℚ :=
  (units_scale st index).map (fun k => k * st.spin.value)

/-- SiValue.value getter, trigger.py lines 249 to 251. -/
def value_get (st : SiValueState) : Except Err ℚ :=
  value_from_index st st.units_index

/-- Search loop of the SiValue.value setter, trigger.py lines 259 to 266:
the enumerated unit list is traversed in reverse order and the first unit
whose scale compares less or equal to the value is taken, so the result is
the last (highest index) qualifying unit.  Comparing the value against the
period sentinel string raises TypeError; the comparison for a later index
happens first, so an error surfaces only if no later unit qualified. -/
def select_last (k : ℚ) : List Scale → Except Err (Option (Nat × ℚ))
  | [] => .ok none
  | sc :: rest =>
    match select_last k rest with
    | .error e => .error e
    | .ok (some (i, g)) => .ok (some (i + 1, g))
    | .ok none =>
      match sc with
      | .num g => if g ≤ k then .ok (some (0, g)) else .ok none
      | .period => .error (.typeError "not supported between instances of float and str")

/-- SiValue.value setter, trigger.py lines 253 to 267: without units the
spin box is set directly; otherwise the spin box is first set to 0, then
the reverse search picks the last unit whose scale is at most k, selects
it in the combo box, remembers it as previous index, and displays k
divided by the scale.  When no unit qualifies, nothing further happens:
the spin box stays 0 and the combo box keeps its previous selection. -/
def value_set (st : SiValueState) (k : ℚ) : Except Err SiValueState :=
  match units_enum st with
  | .error e => .error e
  | .ok none => .ok { st with spin := spin_set_value st.spin k }
  | .ok (some us) =>
    let st1 := { st with spin := spin_set_value st.spin 0 }
    match select_last k (us.map Prod.snd) with
    | .error e => .error e
    | .ok none => .ok st1
    | .ok (some (i, g)) =>
      .ok { st1 with units_index := (i : Int), units_prev := some (i : Int),
                     spin := spin_set_value st1.spin (k / g) }

/-- Spin box reconfiguration at the end of SiValue.signal_set, trigger.py
lines 287 to 291: range (default 0 to 1e9, step 1) and decimals (default
2) from the catalog entry.  Note that this happens after the default value
was assigned, so the assignment used the previous range and decimals. -/
def apply_spin_config (st : SiValueState) (sd : SignalDef) : SiValueState :=
  let r := sd.range.getD (0, 1e9, 1)
  let sp := spin_set_range st.spin r.1 r.2.1
  let sp := { sp with step := r.2.2 }
  let sp := spin_set_decimals sp (sd.float_digits.getD 2)
  { st with spin := sp }

/-- SiValue.signal_set, trigger.py lines 269 to 292: looks the signal up in
SIGNALS (KeyError when absent), clears the units combo box, evaluates the
units property (which raises KeyError for a catalog entry without a units
key, see units_enum), fills the combo box from the units table and selects
the default index (last unit when the catalog has no default_index),
assigns the default value through the value setter, and finally applies
the catalog range and decimals to the spin box.  Combo box signals are
blocked throughout.  The branch for an absent units table (line 276)
mirrors the source but is unreachable after a signal was assigned, since
the units property raises first. -/
def signal_set (st : SiValueState) (sig : String) : Except Err SiValueState :=
  match get_signal sig with
  | none => .error (.keyError sig)
  | some sd =>
    let st2 := { st with signal := some sig, units_items := [], units_index := -1 }
    match units_enum st2 with
    | .error e => .error e
    | .ok none =>
      let st3 := { st2 with units_enabled := false }
      (value_set st3 sd.default_value).map (fun st4 => apply_spin_config st4 sd)
    | .ok (some us) =>
      let di : Nat := sd.default_index.getD (us.length - 1)
      let items := us.map Prod.fst
      let st3 := { st2 with
                   units_enabled := true, units_items := items,
                   units_index := (di : Int), units_prev := some (di : Int) }
      (value_set st3 sd.default_value).map (fun st4 => apply_spin_config st4 sd)

/-- SiValue.__init__, trigger.py lines 193 to 211: spin box starts with
value 0, range 0 to 10000, single step 1 and the Qt default of 2 decimals;
the units combo box starts empty; then signal_set runs. -/
def si_init (sig : String) (sf : Option ℚ) (up : List (String × String)) :
    Except Err SiValueState :=
  signal_set
    { signal := none, sampling_frequency := sf, units_pref := up,
      spin := { value := 0, lo := 0, hi := 10000, step := 1, decimals := 2 },
      units_items := [], units_index := -1, units_enabled := true,
      units_prev := none } sig

/-- SiValue.settings getter, trigger.py lines 213 to 218. -/
def si_settings_get (st : SiValueState) : Except Err SVal := do
  let v ← value_get st
  match st.signal with
  | some nm => .ok (SVal.d [("value", .q v), ("signal", .s nm)])
  | none => .error (.typeError "NoneType object is not subscriptable")

/-- SiValue.settings setter, trigger.py lines 220 to 223: x[signal] and
x[value] are mandatory keys; a missing one raises KeyError. -/
def si_settings_set (st : SiValueState) (x : SVal) : Except Err SiValueState := do
  let sv ← dict_get x "signal"
  let nm ← as_str sv
  let st2 ← signal_set st nm
  let vv ← dict_get x "value"
  let v ← as_num vv
  value_set st2 v

/-- SiValue._on_units_change, trigger.py lines 294 to 298: re-displays the
base value (computed with the previous unit) in the newly selected unit
and remembers the new index as previous. -/
def on_units_change (st : SiValueState) : Except Err SiValueState := do
  let kp ←
    match st.units_prev with
    | some p => value_from_index st p
    | none => .error (.typeError "list indices must be integers, not NoneType")
  let sc ← units_scale st st.units_index
  .ok { st with spin := spin_set_value st.spin (kp / sc),
                units_prev := some st.units_index }

/-- User interaction with the units combo box: selecting an entry changes
the current index and, if it differs from the old one, fires
currentIndexChanged which runs SiValue._on_units_change. -/
def user_select_units (st : SiValueState) (index : Int) : Except Err SiValueState :=
  if index = st.units_index then .ok st
  else on_units_change { st with units_index := index }

/-- Decidable equality of Except results, used to evaluate the model at
concrete inputs. -/
instance {ε α : Type} [DecidableEq ε] [DecidableEq α] : DecidableEq (Except ε α) :=
  fun x y =>
    match x, y with
    | .ok a, .ok b =>
      if h : a = b then isTrue (by rw [h]) else isFalse (fun hh => by cases hh; exact h rfl)
    | .error a, .error b =>
      if h : a = b then isTrue (by rw [h]) else isFalse (fun hh => by cases hh; exact h rfl)
    | .ok _, .error _ => isFalse (fun hh => by cases hh)
    | .error _, .ok _ => isFalse (fun hh => by cases hh)

/-- Comparison operator choices of ThresholdSubcondition, trigger.py
line 448. -/
def OPERATIONS : List String := [">", "<", "≥", "≤", "=="]

/-- State of a ThresholdSubcondition widget, trigger.py lines 433 to 471:
the signal combo box (its fixed item list and current index), the
operation combo box index, and the threshold SiValue. -/
structure ThrState where
  signals : List String
  signal_index : Int
  op_index : Int
  threshold : SiValueState
deriving DecidableEq

/-- ThresholdSubcondition.__init__, trigger.py lines 435 to 455: the signal
combo box is filled before its change slot is connected, so no slot fires;
the threshold SiValue starts on the current signal with no sampling
frequency and the units dictionary passed through. -/
def thr_init (signals : List String) (up : List (String × String)) : Except Err ThrState :=
  (si_init "current" none up).map (fun th =>
    { signals := signals, signal_index := if signals.isEmpty then -1 else 0,
      op_index := 0, threshold := th })

/-- QComboBox.setCurrentIndex on the signal combo box: an out of range index
clears the selection; a change fires _on_signal_index_changed, trigger.py
lines 457 to 458, which re-runs signal_set on the threshold SiValue with
the new current text.  An exception raised inside the slot is modelled as
propagating; even where the Qt signal layer would swallow it, the settings
setter re-raises the same exception at the following direct assignment
self.threshold.settings = x on line 471, so the observable result of the
setter is the same error. -/
def thr_signal_set_index (st : ThrState) (index : Int) : Except Err ThrState :=
  let j := if 0 ≤ index ∧ index < (st.signals.length : Int) then index else -1
  if j = st.signal_index then .ok st
  else
    let st2 := { st with signal_index := j }
    (signal_set st2.threshold (combo_text st2.signals j)).map
      (fun th => { st2 with threshold := th })

/-- ThresholdSubcondition.settings getter, trigger.py lines 460 to 464. -/
def thr_settings_get (st : ThrState) : Except Err SVal := do
  let s ← si_settings_get st.threshold
  dict_append s "operation" (.s (combo_text OPERATIONS st.op_index))

/-- ThresholdSubcondition.settings setter, trigger.py lines 466 to 471: the
operation defaults to greater than and an unknown operation string raises
ValueError; the signal combo box is set by findText (firing the signal
slot on change); then the threshold SiValue settings are applied. -/
def thr_settings_set (st : ThrState) (x : SVal) : Except Err ThrState := do
  let op_str ← as_str (dict_get_default x "operation" (.s ">"))
  let op_idx ←
    match OPERATIONS.findIdx? (fun o => o == op_str) with
    | some i => Except.ok (i : Int)
    | none => Except.error (Err.valueError "is not in list")
  let st2 ← thr_signal_set_index st (find_text st.signals
    ((as_str (dict_get_default x "signal" (.s "current"))).toOption.getD ""))
  let st3 := { st2 with op_index := op_idx }
  let th ← si_settings_set st3.threshold x
  .ok { st3 with threshold := th }

/-- State of an EdgeCondition widget, trigger.py lines 474 to 521. -/
structure EdgeState where
  line1 : ThrState
  duration_min : SiValueState
  duration_max : SiValueState
  line3_checked : Bool
deriving DecidableEq

/-- EdgeCondition.__init__, trigger.py lines 476 to 505: threshold line over
the edge signals, duration_min set to 10e-6 and duration_max set to 1.0
through the SiValue value setter, and the duration_max checkbox unchecked. -/
def edge_init (sf : Option ℚ) (up : List (String × String)) : Except Err EdgeState := do
  let l1 ← thr_init EDGE_SIGNALS up
  let dmin0 ← si_init "time" sf []
  let dmin ← value_set dmin0 1e-5
  let dmax0 ← si_init "time" sf []
  let dmax ← value_set dmax0 1
  .ok { line1 := l1, duration_min := dmin, duration_max := dmax, line3_checked := false }

/-- EdgeCondition.settings getter, trigger.py lines 507 to 514. -/
def edge_settings_get (st : EdgeState) : Except Err SVal := do
  let t ← thr_settings_get st.line1
  let dn ← si_settings_get st.duration_min
  let dx ← si_settings_get st.duration_max
  .ok (SVal.d [("threshold", t), ("duration_min", dn), ("duration_max", dx),
               ("duration_max_enabled", .b st.line3_checked)])

/-- EdgeCondition.settings setter, trigger.py lines 516 to 521: the keys
threshold, duration_min, duration_max and duration_max_enabled are read by
plain subscription, so a missing one raises KeyError. -/
def edge_settings_set (st : EdgeState) (x : SVal) : Except Err EdgeState := do
  let tv ← dict_get x "threshold"
  let l1 ← thr_settings_set st.line1 tv
  let mv ← dict_get x "duration_min"
  let dn ← si_settings_set st.duration_min mv
  let xv ← dict_get x "duration_max"
  let dx ← si_settings_set st.duration_max xv
  let ev ← dict_get x "duration_max_enabled"
  .ok { line1 := l1, duration_min := dn, duration_max := dx,
        line3_checked := truthy ev }

/-- State of a WindowCondition widget, trigger.py lines 524 to 558. -/
structure WindowState where
  line1 : ThrState
  duration : SiValueState
deriving DecidableEq

/-- WindowCondition.__init__, trigger.py lines 526 to 546: threshold line
over the window signals (the threshold SiValue itself still starts on the
current signal), and a time duration SiValue that also receives the units
dictionary. -/
def window_init (sf : Option ℚ) (up : List (String × String)) : Except Err WindowState := do
  let l1 ← thr_init WINDOW_SIGNALS up
  let dur ← si_init "time" sf up
  .ok { line1 := l1, duration := dur }

/-- WindowCondition.settings getter, trigger.py lines 548 to 553. -/
def window_settings_get (st : WindowState) : Except Err SVal := do
  let t ← thr_settings_get st.line1
  let dv ← si_settings_get st.duration
  .ok (SVal.d [("threshold", t), ("duration", dv)])

/-- WindowCondition.settings setter, trigger.py lines 555 to 558: both keys
fall back to literal defaults, so this setter tolerates missing keys. -/
def window_settings_set (st : WindowState) (x : SVal) : Except Err WindowState := do
  let l1 ← thr_settings_set st.line1
    (dict_get_default x "threshold" (.d [("signal", .s "energy"), ("value", .q 1)]))
  let dur ← si_settings_set st.duration
    (dict_get_default x "duration" (.d [("signal", .s "time"), ("value", .q 1e-3)]))
  .ok { line1 := l1, duration := dur }

/-- State of a WaitCondition widget, trigger.py lines 412 to 430. -/
structure WaitState where
  duration : SiValueState
deriving DecidableEq

/-- WaitCondition.__init__, trigger.py lines 414 to 422: a time duration
SiValue whose value is set to 0.5. -/
def wait_init (sf : Option ℚ) : Except Err WaitState := do
  let d0 ← si_init "time" sf []
  let d ← value_set d0 (1/2)
  .ok { duration := d }

/-- WaitCondition.settings getter, trigger.py lines 424 to 426. -/
def wait_settings_get (st : WaitState) : Except Err SVal :=
  si_settings_get st.duration

/-- WaitCondition.settings setter, trigger.py lines 428 to 430. -/
def wait_settings_set (st : WaitState) (x : SVal) : Except Err WaitState :=
  (si_settings_set st.duration x).map (fun d => { duration := d })

/-- State of a DurationCheckbox widget, trigger.py lines 373 to 409. -/
structure DurCheckState where
  checked : Bool
  duration : SiValueState
deriving DecidableEq

/-- DurationCheckbox.__init__, trigger.py lines 375 to 382. -/
def dc_init (sf : Option ℚ) : Except Err DurCheckState :=
  (si_init "time" sf []).map (fun d => { checked := false, duration := d })

/-- DurationCheckbox.settings getter, trigger.py lines 400 to 404. -/
def dc_settings_get (st : DurCheckState) : Except Err SVal := do
  let s ← si_settings_get st.duration
  dict_append s "enabled" (.b st.checked)

/-- DurationCheckbox.settings setter, trigger.py lines 406 to 409: the
enabled key falls back to None, but the nested SiValue setter still
requires the signal and value keys. -/
def dc_settings_set (st : DurCheckState) (x : SVal) : Except Err DurCheckState := do
  let d ← si_settings_set st.duration x
  .ok { checked := truthy (sv_get x "enabled"), duration := d }

/-- State of a GpoAction widget, trigger.py lines 561 to 597. -/
structure GpoState where
  enabled : Bool
  signal_items : List String
  signal_index : Int
  value_index : Int
deriving DecidableEq

/-- GpoAction.__init__, trigger.py lines 563 to 583. -/
def gpo_init : GpoState :=
  { enabled := false, signal_items := ["out0", "out1"], signal_index := 0,
    value_index := 0 }

/-- GpoAction.settings getter, trigger.py lines 585 to 591. -/
def gpo_settings_get (st : GpoState) : SVal :=
  SVal.d [("enabled", .b st.enabled),
          ("signal", .s (combo_text st.signal_items st.signal_index)),
          ("value", .q (st.value_index : ℚ))]

/-- GpoAction.settings setter, trigger.py lines 593 to 597: every key has a
default; no combo box slot is connected. -/
def gpo_settings_set (st : GpoState) (x : SVal) : Except Err GpoState := do
  let sg ← as_str (dict_get_default x "signal" (.s "out0"))
  let vv ← as_int (dict_get_default x "value" (.q 0))
  .ok { st with
        enabled := truthy (sv_get x "enabled"),
        signal_index := find_text st.signal_items sg,
        value_index := if 0 ≤ vv ∧ vv < 2 then vv else -1 }

/-- State of a StartActions widget, trigger.py lines 600 to 627. -/
structure StartActionsState where
  ram : Bool
  record : Bool
  gpo : GpoState
deriving DecidableEq

/-- StartActions.__init__, trigger.py lines 602 to 613: the ram checkbox
starts checked. -/
def sa_init : StartActionsState :=
  { ram := true, record := false, gpo := gpo_init }

/-- StartActions.settings getter, trigger.py lines 615 to 621. -/
def sa_settings_get (st : StartActionsState) : SVal :=
  SVal.d [("ram", .b st.ram), ("record", .b st.record),
          ("gpo", gpo_settings_get st.gpo)]

/-- StartActions.settings setter, trigger.py lines 623 to 627: the ram and
record keys are read by plain subscription, so a missing one raises
KeyError; the gpo key falls back to an empty dictionary. -/
def sa_settings_set (st : StartActionsState) (x : SVal) : Except Err StartActionsState := do
  let rv ← dict_get x "ram"
  let cv ← dict_get x "record"
  let g ← gpo_settings_set st.gpo (dict_get_default x "gpo" (.d []))
  .ok { ram := truthy rv, record := truthy cv, gpo := g }

/-- State of a StopActions widget, trigger.py lines 630 to 647. -/
structure StopActionsState where
  gpo : GpoState
deriving DecidableEq

/-- StopActions.__init__, trigger.py lines 632 to 637. -/
def stopa_init : StopActionsState := { gpo := gpo_init }

/-- StopActions.settings getter, trigger.py lines 639 to 643. -/
def stopa_settings_get (st : StopActionsState) : SVal :=
  SVal.d [("gpo", gpo_settings_get st.gpo)]

/-- StopActions.settings setter, trigger.py lines 645 to 647. -/
def stopa_settings_set (st : StopActionsState) (x : SVal) : Except Err StopActionsState :=
  (gpo_settings_set st.gpo (dict_get_default x "gpo" (.d []))).map
    (fun g => { gpo := g })

/-- Widgets that can appear as the body content of a Section. -/
inductive ChildW where
  | edge (st : EdgeState)
  | window (st : WindowState)
  | wait (st : WaitState)
  | start_acts (st : StartActionsState)
  | stop_acts (st : StopActionsState)
deriving DecidableEq

/-- Settings getter dispatch over the Section body widgets. -/
def child_settings_get : ChildW → Except Err SVal
  | .edge st => edge_settings_get st
  | .window st => window_settings_get st
  | .wait st => wait_settings_get st
  | .start_acts st => .ok (sa_settings_get st)
  | .stop_acts st => .ok (stopa_settings_get st)

/-- Settings setter dispatch over the Section body widgets. -/
def child_settings_set : ChildW → SVal → Except Err ChildW
  | .edge st, x => (edge_settings_set st x).map ChildW.edge
  | .window st, x => (window_settings_set st x).map ChildW.window
  | .wait st, x => (wait_settings_set st x).map ChildW.wait
  | .start_acts st, x => (sa_settings_set st x).map ChildW.start_acts
  | .stop_acts st, x => (stopa_settings_set st x).map ChildW.stop_acts

/-- State of a Section widget, trigger.py lines 301 to 370: the named body
widgets, the selection combo box (items, index, visibility), and which
variant is currently placed in the body layout (none before the first
content change).  The field change_count is a ghost counter of the number
of times _on_content_change ran; it changes nothing else and exists only
to state claims about that method being or not being invoked. -/
structure SectionState where
  content : List (String × ChildW)
  items : List String
  combo_index : Int
  combo_visible : Bool
  active_variant : Option Nat
  change_count : Nat
deriving DecidableEq

/-- Section.__init__, trigger.py lines 303 to 332: no content, an empty and
invisible combo box. -/
def section_init : SectionState :=
  { content := [], items := [], combo_index := -1, combo_visible := false,
    active_variant := none, change_count := 0 }

/-- Section._on_content_change, trigger.py lines 334 to 340: hides every
body widget and shows self._content[index]; a Python subscription, so a
negative index wraps around and an out of range index raises IndexError. -/
def section_content_change (sec : SectionState) (index : Int) : Except Err SectionState :=
  match py_index sec.content index with
  | none => .error .indexError
  | some (j, _) =>
    .ok { sec with active_variant := some j, change_count := sec.change_count + 1 }

/-- Section.add_body_item, trigger.py lines 342 to 348: appends the widget
to the content list, then adds its name to the combo box.  When the combo
box was empty, adding the first item selects index 0 and, since signals
are not blocked here, fires currentIndexChanged into _on_content_change.
The visible argument is always left at None by Trigger, so the combo box
visibility is not changed here. -/
def add_body_item (sec : SectionState) (name : String) (w : ChildW) : Except Err SectionState :=
  let sec2 := { sec with
                content := sec.content ++ [(name, w)],
                items := sec.items ++ [name] }
  if sec.combo_index = -1 then
    section_content_change { sec2 with combo_index := 0 } 0
  else .ok sec2

/-- Serialization of the body widgets of a Section, one (name, settings)
pair per content entry, from the loop of the Section.settings getter. -/
def section_pairs (content : List (String × ChildW)) : Except Err (List (String × SVal)) :=
  content.mapM (fun kw => (child_settings_get kw.2).map (fun s => (kw.1, s)))

/-- Section.settings getter, trigger.py lines 350 to 357: the current combo
box text under the key __selected__, then every variant under its name. -/
def section_settings_get (sec : SectionState) : Except Err SVal :=
  (section_pairs sec.content).map (fun pairs =>
    SVal.d (("__selected__", SVal.s (combo_text sec.items sec.combo_index)) :: pairs))

/-- Python equality between the value of the __selected__ key (possibly
None) and a variant key string. -/
def sel_matches (selected : SVal) (key : String) : Bool :=
  match selected with
  | .s t => t == key
  | _ => false

/-- Loop body of the Section.settings setter, trigger.py lines 365 to 369:
for each content entry in order, the key is added back to the combo box
(the first one silently selecting index 0), the widget settings are
applied with an empty dictionary fallback, and when the key equals the
selected tag _on_content_change runs with that index.  The index is always
in range here, matching the source where self._content is unchanged. -/
def section_apply_loop (x : SVal) (selected : SVal) :
    Nat → SectionState → List (String × ChildW) → Except Err SectionState
  | _, acc, [] => .ok acc
  | idx, acc, (key, w) :: rest => do
    let acc1 := { acc with
                  items := acc.items ++ [key],
                  combo_index := if acc.combo_index = -1 then 0 else acc.combo_index }
    let w2 ← child_settings_set w (dict_get_default x key (.d []))
    let acc2 := { acc1 with content := acc1.content ++ [(key, w2)] }
    let acc3 ← if sel_matches selected key then section_content_change acc2 (idx : Int)
               else .ok acc2
    section_apply_loop x selected (idx + 1) acc3 rest

/-- Section.settings setter, trigger.py lines 359 to 370: reads the
__selected__ tag (None when missing), blocks combo box signals, clears the
combo box, sets its visibility to the truthiness of the tag, and runs the
loop over the content. -/
def section_settings_set (sec : SectionState) (x : SVal) : Except Err SectionState :=
  let selected := sv_get x "__selected__"
  let sec2 := { sec with
                items := [], combo_index := -1,
                combo_visible := truthy selected, content := [] }
  section_apply_loop x selected 0 sec2 sec.content

/-- User interaction with the Section combo box: choosing an entry changes
the current index and fires _on_content_change when it differs. -/
def user_section_select (sec : SectionState) (index : Int) : Except Err SectionState :=
  if index = sec.combo_index then .ok sec
  else section_content_change { sec with combo_index := index } index

/-- State of the Trigger widget, trigger.py lines 650 to 702: the six
sections in order. -/
structure TriggerState where
  before_start : DurCheckState
  start : SectionState
  start_actions : SectionState
  stop : SectionState
  stop_actions : SectionState
  after_stop : DurCheckState
deriving DecidableEq

/-- Trigger.__init__, trigger.py lines 652 to 688: builds the six sections;
the start section holds edge and window variants, the stop section holds
wait, edge and window variants, and the action sections hold one widget
each. -/
def trigger_init (sf : ℚ) (up : List (String × String)) : Except Err TriggerState := do
  let bs ← dc_init (some sf)
  let e1 ← edge_init (some sf) up
  let w1 ← window_init (some sf) up
  let start1 ← add_body_item section_init "edge" (.edge e1)
  let start2 ← add_body_item start1 "window" (.window w1)
  let sa1 ← add_body_item section_init "start_actions" (.start_acts sa_init)
  let wt ← wait_init (some sf)
  let e2 ← edge_init (some sf) up
  let w2 ← window_init (some sf) up
  let stop1 ← add_body_item section_init "wait" (.wait wt)
  let stop2 ← add_body_item stop1 "edge" (.edge e2)
  let stop3 ← add_body_item stop2 "window" (.window w2)
  let sp1 ← add_body_item section_init "stop_actions" (.stop_acts stopa_init)
  let af ← dc_init (some sf)
  .ok { before_start := bs, start := start2, start_actions := sa1,
        stop := stop3, stop_actions := sp1, after_stop := af }

/-- Literal default settings document TRIGGER_SETTINGS_DEFAULT, trigger.py
lines 110 to 180. -/
def TRIGGER_SETTINGS_DEFAULT : SVal :=
  .d [("before_start", .d [("enabled", .b true), ("value", .q 1e-3),
                           ("signal", .s "time")]),
      ("start", .d [("__selected__", .s "edge"),
        ("edge", .d [("threshold", .d [("signal", .s "current"),
                                       ("operation", .s ">"), ("value", .q 1e-5)]),
                     ("duration_min", .d [("value", .q 1e-5), ("signal", .s "time")]),
                     ("duration_max", .d [("value", .q 1), ("signal", .s "time")]),
                     ("duration_max_enabled", .b false)]),
        ("window", .d [("threshold", .d [("signal", .s "energy"),
                                         ("operation", .s ">"), ("value", .q 1)]),
                       ("duration", .d [("value", .q (1/10)), ("signal", .s "time")])])]),
      ("start_actions", .d [("start_actions", .d [("ram", .b true), ("record", .b false)])]),
      ("stop", .d [("__selected__", .s "duration"),
        ("wait", .d [("value", .q (1/2)), ("signal", .s "time")]),
        ("edge", .d [("threshold", .d [("signal", .s "current"),
                                       ("operation", .s "<"), ("value", .q (9/10))]),
                     ("duration_min", .d [("value", .q 1e-5), ("signal", .s "time")]),
                     ("duration_max", .d [("value", .q 1), ("signal", .s "time")]),
                     ("duration_max_enabled", .b false)])]),
      ("after_stop", .d [("enabled", .b false), ("value", .q 1e-3),
                         ("signal", .s "time")])]

/-- Trigger.settings setter, trigger.py lines 697 to 702: None is replaced
by the literal default document; each of the six sections receives its
sub-dictionary, with an empty dictionary fallback for a missing section
key. -/
def trigger_settings_set (st : TriggerState) (x : Option SVal) : Except Err TriggerState :=
  let doc := x.getD TRIGGER_SETTINGS_DEFAULT
  do
    let bs ← dc_settings_set st.before_start (dict_get_default doc "before_start" (.d []))
    let s1 ← section_settings_set st.start (dict_get_default doc "start" (.d []))
    let s2 ← section_settings_set st.start_actions (dict_get_default doc "start_actions" (.d []))
    let s3 ← section_settings_set st.stop (dict_get_default doc "stop" (.d []))
    let s4 ← section_settings_set st.stop_actions (dict_get_default doc "stop_actions" (.d []))
    let af ← dc_settings_set st.after_stop (dict_get_default doc "after_stop" (.d []))
    .ok { before_start := bs, start := s1, start_actions := s2,
          stop := s3, stop_actions := s4, after_stop := af }

/-- Helper _is_digital_signal of trigger_widget.py lines 182 to 183. -/
def is_digital_signal (s : String) : Bool :=
  ["0", "1", "2", "3", "T"].contains s

/-- State of the TriggerWidget of trigger_widget.py relevant to the status
button: the status property of the button and the run mode button check
state. -/
structure TriggerWidgetState where
  status : String
  run_mode_checked : Bool
deriving DecidableEq

/-- TriggerWidget._status_update, trigger_widget.py lines 754 to 758: sets
the status property of the button and repolishes its style. -/
def status_update (st : TriggerWidgetState) (status : String) : TriggerWidgetState :=
  { st with status := status }

/-- TriggerWidget._on_status_button_pressed, trigger_widget.py lines 763 to
771, together with _activate on lines 760 to 761.  For an inactive status,
_activate runs _status_update with searching.  For searching or active the
source calls self._deactivate(), but no _deactivate method is defined
anywhere in trigger_widget.py (nor elsewhere in the sources), so the call
raises AttributeError.  Any other status is logged as an error and leaves
the state unchanged. -/
def on_status_button_pressed (st : TriggerWidgetState) : Except Err TriggerWidgetState :=
  if st.status = "inactive" then .ok (status_update st "searching")
  else if st.status = "searching" ∨ st.status = "active" then
    .error (.attributeError "TriggerWidget object has no attribute _deactivate")
  else .ok st

/-- Trigger.settings getter, trigger.py lines 690 to 695: one entry per
section, in the order of self._sections, line 658. -/
def trigger_settings_get (st : TriggerState) : Except Err SVal := do
  let bs ← dc_settings_get st.before_start
  let s1 ← section_settings_get st.start
  let s2 ← section_settings_get st.start_actions
  let s3 ← section_settings_get st.stop
  let s4 ← section_settings_get st.stop_actions
  let af ← dc_settings_get st.after_stop
  .ok (.d [("before_start", bs), ("start", s1), ("start_actions", s2),
           ("stop", s3), ("stop_actions", s4), ("after_stop", af)])

/-- Units dictionary used by the application and by the module test block,
trigger.py line 714: Joules for energy and Coulombs for charge. -/
def upJC : List (String × String) := [("energy", "J"), ("charge", "C")]

/-- Placeholder SiValue state, only used as an unreachable match fallback
when a constructor evaluation is unpacked. -/
def si_dummy : SiValueState :=
  { signal := none, sampling_frequency := none, units_pref := [],
    spin := { value := 0, lo := 0, hi := 0, step := 0, decimals := 0 },
    units_items := [], units_index := -1, units_enabled := false,
    units_prev := none }

/-- SiValue freshly constructed on the current signal, as in a
ThresholdSubcondition (trigger.py line 454). -/
def si_current : SiValueState :=
  match si_init "current" none upJC with
  | .ok st => st
  | .error _ => si_dummy

/-- SiValue freshly constructed on the time signal with no sampling
frequency supplied by the caller. -/
def si_time_nosf : SiValueState :=
  match si_init "time" none [] with
  | .ok st => st
  | .error _ => si_dummy

/-- Stop condition section of a freshly constructed Trigger widget with a
2 MHz sampling frequency, trigger.py lines 672 to 676. -/
def stop_section : SectionState :=
  match trigger_init 2000000 upJC with
  | .ok st => st.stop
  | .error _ => section_init

/-- Observer extracting the displayed spin box number from a SiValue
operation result (0 for an error result). -/
def res_spin_value (r : Except Err SiValueState) : ℚ :=
  match r with
  | .ok s2 => s2.spin.value
  | .error _ => 0

/-- Specification side definition, following the words of the spec: the
index of the largest unit whose scale is at most the base value, that is
the maximal index of a qualifying scale (for an ascending table the
maximal index carries the maximal qualifying scale). -/
def spec_largest_unit_index (qs : List ℚ) (k : ℚ) : Option Nat :=
  ((List.range qs.length).filter (fun i => decide (qs.getD i 0 ≤ k))).max?

end PyJouleTrig

namespace PyJouleTrig

/-- Claim C1, counterexample.  The claim states that every settings setter
on the configuration deserialization path tolerates missing keys.  It is
false: applying an empty dictionary to the EdgeCondition.settings setter
of a freshly built edge condition raises KeyError for the key threshold
(trigger.py line 518 reads x[threshold] by plain subscription). -/
theorem c1_edge_settings_missing_key_raises :
    ((edge_init (some 2000000) upJC).bind
      (fun e => edge_settings_set e (SVal.d [])))
      = .error (.keyError "threshold") := by decide

/-- Claim C1, amended.  Missing key tolerance holds only where the sources
use dictionary get with a default: the Trigger and Section setters
substitute an empty dictionary for a missing section or variant key, and
the full fallback path (settings assigned None) applies the literal
default document TRIGGER_SETTINGS_DEFAULT without any missing key error,
after which the whole configuration serializes again; the leaf setters
(SiValue, EdgeCondition, StartActions) instead raise KeyError on partial
input, as the counterexample shows. -/
theorem c1_default_document_applies :
    (((trigger_init 2000000 upJC).bind
        (fun st => trigger_settings_set st none)).isOk = true)
    ∧ (((trigger_init 2000000 upJC).bind
        (fun st => (trigger_settings_set st none).bind trigger_settings_get)).isOk
        = true) := by
  exact ⟨by decide, by decide⟩

/-- Claim C2: pressing the status button while the status is searching or
active is specified to transition to inactive without error.  The code
cannot do this: _on_status_button_pressed (trigger_widget.py line 769)
calls self._deactivate(), and no _deactivate method exists anywhere in the
sources, so the call raises AttributeError.  The tooltip in the same file
(lines 72 to 85) documents that pressing the button halts and returns to
inactive, so the code contradicts its own documentation. -/
theorem c2_halt_raises_attribute_error :
    ∀ rm : Bool,
      on_status_button_pressed { status := "searching", run_mode_checked := rm }
        = .error (.attributeError "TriggerWidget object has no attribute _deactivate")
      ∧ on_status_button_pressed { status := "active", run_mode_checked := rm }
        = .error (.attributeError "TriggerWidget object has no attribute _deactivate") := by
  decide

/-- Claim C6: from an inactive status, pressing the status button runs
_activate, which transitions the status to searching
(trigger_widget.py lines 760 to 767). -/
theorem c6_inactive_start_searching :
    ∀ rm : Bool,
      on_status_button_pressed { status := "inactive", run_mode_checked := rm }
        = .ok { status := "searching", run_mode_checked := rm } := by
  decide

/-- Claim C5, counterexample.  The claim (with its spec source) states that
a configuration referencing current_range with the operator == passes
validation, while a non equality operator on a declared digital signal is
rejected with a validation error at configuration validation time.  Both
halves are false of the code: applying threshold settings that select any
catalog signal without a units key (current_range, current_lsb,
voltage_lsb) raises KeyError for the key units out of SiValue._units_enum
(trigger.py line 229), for the operator == exactly as for the operator
greater than, so there is no ValidationError and no operator dependent
acceptance at all. -/
theorem c5_threshold_settings_raise_key_error :
    (((thr_init EDGE_SIGNALS upJC).bind
      (fun t => thr_settings_set t
        (SVal.d [("signal", .s "current_range"), ("operation", .s "=="),
                 ("value", .q 1)]))) = .error (.keyError "units"))
    ∧ (((thr_init EDGE_SIGNALS upJC).bind
      (fun t => thr_settings_set t
        (SVal.d [("signal", .s "current_lsb"), ("operation", .s ">"),
                 ("value", .q 1)]))) = .error (.keyError "units")) := by
  exact ⟨by decide, by decide⟩

/-- Claim C5, amended.  No configuration time validation of operator and
signal compatibility exists in the sources, and the failure that does
occur is not operator dependent: the ThresholdSubcondition.settings
setter accepts every operator of its list for each edge signal that has a
units table (current, voltage, power), while for each catalog signal
without a units key (current_range, current_lsb, voltage_lsb) it raises
the same KeyError for the key units under every operator, equality
included, out of SiValue._units_enum, never a validation error (the only
ValueError arises from an operator string outside the list).  The sole
digital signal check in the sources, _is_digital_signal of
trigger_widget.py, merely selects which condition choice list the other
widget displays, classifies the device sub signal ids 0 to 3 and T as
digital, and does not even classify current_lsb as digital. -/
theorem c5_no_operator_validation :
    ((["current", "voltage", "power"].all (fun sig =>
        OPERATIONS.all (fun op =>
          ((thr_init EDGE_SIGNALS upJC).bind (fun t =>
            thr_settings_set t (SVal.d [("signal", .s sig),
              ("operation", .s op), ("value", .q 1)]))).isOk))) = true)
    ∧ ((["current_range", "current_lsb", "voltage_lsb"].all (fun sig =>
        OPERATIONS.all (fun op =>
          decide (((thr_init EDGE_SIGNALS upJC).bind (fun t =>
            thr_settings_set t (SVal.d [("signal", .s sig),
              ("operation", .s op), ("value", .q 1)])))
            = Except.error (Err.keyError "units"))))) = true)
    ∧ is_digital_signal "T" = true
    ∧ is_digital_signal "current_lsb" = false := by
  exact ⟨by decide, by decide, by decide, by decide⟩

/-- Claim C10: in the literal default document the stop tag __selected__ is
duration, which matches none of the stop section variant keys wait, edge,
window; consequently applying the default document (settings None) leaves
the ghost invocation counter of Section._on_content_change for the stop
section at its construction value 1 (the single invocation fired by the
combo box when the first variant was inserted) and the shown variant
unchanged: the setter selects no stop variant. -/
theorem c10_default_stop_selects_nothing :
    (sv_get (sv_get TRIGGER_SETTINGS_DEFAULT "stop") "__selected__" = SVal.s "duration")
    ∧ ((trigger_init 2000000 upJC).map
        (fun st => st.stop.content.map Prod.fst) = .ok ["wait", "edge", "window"])
    ∧ ("duration" ∉ ["wait", "edge", "window"])
    ∧ ((trigger_init 2000000 upJC).map
        (fun st => (st.stop.change_count, st.stop.active_variant)) = .ok (1, some 0))
    ∧ (((trigger_init 2000000 upJC).bind
        (fun st => trigger_settings_set st none)).map
        (fun st => (st.stop.change_count, st.stop.active_variant)) = .ok (1, some 0)) := by
  exact ⟨rfl, by decide, by decide, by decide, by decide⟩

/-- Claim C3, counterexample.  The claim states a round trip within 1e-9
relative tolerance for every representable value.  It is false: writing
1.234 microamperes (base value 1.234e-6) through the SiValue value setter
stores the spin box display rounded to its two decimals, and reading the
value back yields 1.23e-6, a relative error of about 3.2e-3. -/
theorem c3_roundtrip_not_within_tolerance :
    ((value_set si_current (1.234e-6)).bind value_get = .ok (1.23e-6))
    ∧ ¬ (|(1.23e-6 : ℚ) - 1.234e-6| ≤ 1e-9 * 1.234e-6) := by
  exact ⟨by decide, by decide⟩

/-- Claim C4, counterexample.  The claim states that the value setter
selects the smallest unit when the value is below every scale.  It is
false: writing 1e-10 amperes (below the smallest current scale 1e-9)
leaves the combo box on its previous unit, index 3 (amperes), not on the
smallest unit index 0, and displays 0. -/
theorem c4_below_all_scales_keeps_unit :
    ((value_set si_current 1e-10).map
      (fun s2 => (s2.units_index, s2.spin.value)) = .ok (3, 0))
    ∧ (3 : Int) ≠ 0 := by
  exact ⟨by decide, by decide⟩

/-- Claim C7, counterexample.  The claim states that a missing sampling
frequency for the sample period pseudo unit is logged and the input
dropped, never fatal.  It is false: on a time SiValue constructed without
a sampling frequency, selecting the samples unit (index 0) runs
_on_units_change, whose call to _units_scale evaluates 1 divided by None
and raises TypeError, which propagates uncaught. -/
theorem c7_sample_period_crash :
    user_select_units si_time_nosf 0
      = .error (.typeError "unsupported operand types for division: int and NoneType") := by
  decide

/-- Positivity of the decimal scaling factor. -/
lemma pow_ten_pos (d : ℕ) : (0 : ℚ) < 10 ^ d := by positivity

/-- Rounding to d decimals is exact on multiples of the decimal step. -/
lemma round_dec_exact (m d : ℕ) :
    round_dec ((m : ℚ) / 10 ^ d) d = (m : ℚ) / 10 ^ d := by
  unfold round_dec
  have h10 : ((10 : ℚ) ^ d) ≠ 0 := ne_of_gt (pow_ten_pos d)
  rw [div_mul_cancel₀ _ h10]
  have hfl : (⌊(m : ℚ) + 1 / 2⌋ : ℤ) = (m : ℤ) := by
    rw [Int.floor_eq_iff]
    constructor
    · push_cast; linarith
    · push_cast; linarith
  rw [hfl]
  push_cast
  ring

/-- Rounding maps zero to zero. -/
lemma round_dec_zero (d : ℕ) : round_dec 0 d = 0 := by
  have h := round_dec_exact 0 d
  simpa using h

/-- Rounding to d decimals moves a value by at most half a decimal step. -/
lemma round_dec_close (x : ℚ) (d : ℕ) :
    |round_dec x d - x| ≤ 1 / 2 * (1 / 10 ^ d) := by
  unfold round_dec
  have h10 : (0 : ℚ) < 10 ^ d := pow_ten_pos d
  have hle : (⌊x * 10 ^ d + 1 / 2⌋ : ℚ) ≤ x * 10 ^ d + 1 / 2 := Int.floor_le _
  have hgt : x * 10 ^ d + 1 / 2 < (⌊x * 10 ^ d + 1 / 2⌋ : ℚ) + 1 := Int.lt_floor_add_one _
  have key : |(⌊x * 10 ^ d + 1 / 2⌋ : ℚ) - x * 10 ^ d| ≤ 1 / 2 := by
    rw [abs_le]
    constructor <;> linarith
  have h1 : (⌊x * 10 ^ d + 1 / 2⌋ : ℚ) / 10 ^ d - x
      = ((⌊x * 10 ^ d + 1 / 2⌋ : ℚ) - x * 10 ^ d) / 10 ^ d := by
    field_simp
    ring
  rw [h1, abs_div, abs_of_pos h10, div_le_iff₀ h10]
  calc |(⌊x * 10 ^ d + 1 / 2⌋ : ℚ) - x * 10 ^ d| ≤ 1 / 2 := key
    _ = 1 / 2 * (1 / 10 ^ d) * 10 ^ d := by field_simp

/-- Clamping is the identity inside the range. -/
lemma clampQ_id (lo hi x : ℚ) (h1 : lo ≤ x) (h2 : x ≤ hi) :
    clampQ lo hi x = x := by
  unfold clampQ
  rw [min_eq_right h2, max_eq_right h1]

/-- Clamping never moves a value further from a point inside the range. -/
lemma clampQ_close (lo hi x r : ℚ) (h1 : lo ≤ x) (h2 : x ≤ hi) :
    |clampQ lo hi r - x| ≤ |r - x| := by
  unfold clampQ
  rcases le_total r x with hrx | hxr
  · have hminr : min hi r = r := min_eq_right (le_trans hrx h2)
    rw [hminr]
    rcases le_total lo r with hlr | hrl
    · rw [max_eq_right hlr]
    · rw [max_eq_left hrl]
      rw [abs_of_nonpos (by linarith), abs_of_nonpos (by linarith)]
      linarith
  · have hmaxlo : max lo (min hi r) = min hi r :=
      max_eq_right (le_trans h1 (le_min h2 hxr))
    rw [hmaxlo]
    rcases le_total hi r with hhr | hrh
    · rw [min_eq_left hhr]
      rw [abs_of_nonneg (by linarith), abs_of_nonneg (by linarith)]
      linarith
    · rw [min_eq_right hrh]

/-- The units table of a SiValue state depends only on its signal name and
units dictionary. -/
lemma units_enum_eq_of (st1 st2 : SiValueState)
    (h1 : st1.signal = st2.signal) (h2 : st1.units_pref = st2.units_pref) :
    units_enum st1 = units_enum st2 := by
  unfold units_enum
  rw [h1, h2]

/-- The unit scale of a SiValue state depends only on its signal name,
units dictionary and sampling frequency. -/
lemma units_scale_eq_of (st1 st2 : SiValueState) (index : Int)
    (h1 : st1.signal = st2.signal) (h2 : st1.units_pref = st2.units_pref)
    (h3 : st1.sampling_frequency = st2.sampling_frequency) :
    units_scale st1 index = units_scale st2 index := by
  unfold units_scale
  rw [units_enum_eq_of st1 st2 h1 h2, h3]

/-- Definitional equation of the search on the empty table. -/
lemma select_last_nil (k : ℚ) : select_last k [] = .ok none := rfl

/-- Definitional equation of the search on a table with a head unit: the
rest of the table (the later, reverse-iterated units) is searched first. -/
lemma select_last_cons (k : ℚ) (sc : Scale) (rest : List Scale) :
    select_last k (sc :: rest)
      = match select_last k rest with
        | .error e => .error e
        | .ok (some (i, g)) => .ok (some (i + 1, g))
        | .ok none =>
          match sc with
          | .num g => if g ≤ k then .ok (some (0, g)) else .ok none
          | .period => .error (.typeError "not supported between instances of float and str") :=
  rfl

/-- A successful result of the value setter search names a unit of the
table whose scale is at most the searched value. -/
lemma select_last_get (k : ℚ) :
    ∀ (l : List Scale) (i : ℕ) (g : ℚ),
      select_last k l = .ok (some (i, g)) →
      l.get? i = some (.num g) ∧ g ≤ k := by
  intro l
  induction l with
  | nil =>
    intro i g h
    have h3 : (Except.ok none : Except Err (Option (ℕ × ℚ))) = .ok (some (i, g)) := h
    simp at h3
  | cons sc rest ih =>
    intro i g h
    rw [select_last_cons] at h
    cases hrest : select_last k rest with
    | error e =>
      rw [hrest] at h
      have h3 : (Except.error e : Except Err (Option (ℕ × ℚ))) = .ok (some (i, g)) := h
      simp at h3
    | ok o =>
      rw [hrest] at h
      cases o with
      | some p =>
        obtain ⟨i0, g0⟩ := p
        have h3 : (Except.ok (some (i0 + 1, g0)) : Except Err (Option (ℕ × ℚ)))
            = .ok (some (i, g)) := h
        simp only [Except.ok.injEq, Option.some.injEq, Prod.mk.injEq] at h3
        obtain ⟨hi, hg⟩ := h3
        subst hi; subst hg
        have hr := ih i0 g0 hrest
        exact ⟨by simpa using hr.1, hr.2⟩
      | none =>
        cases sc with
        | num g1 =>
          have h3 : (if g1 ≤ k then (Except.ok (some (0, g1)) : Except Err (Option (ℕ × ℚ)))
              else .ok none) = .ok (some (i, g)) := h
          by_cases hg1 : g1 ≤ k
          · rw [if_pos hg1] at h3
            simp only [Except.ok.injEq, Option.some.injEq, Prod.mk.injEq] at h3
            obtain ⟨hi, hg⟩ := h3
            subst hi; subst hg
            exact ⟨rfl, hg1⟩
          · rw [if_neg hg1] at h3
            simp at h3
        | period =>
          have h3 : (Except.error
              (Err.typeError "not supported between instances of float and str") :
              Except Err (Option (ℕ × ℚ))) = .ok (some (i, g)) := h
          simp at h3

/-- A search yielding no selection means every numeric unit of the table
compares strictly above the searched value. -/
lemma select_last_none_gt (k : ℚ) :
    ∀ (l : List Scale), select_last k l = .ok none →
      ∀ j h, l.get? j = some (.num h) → k < h := by
  intro l
  induction l with
  | nil => intro _ j h hget; simp at hget
  | cons sc rest ih =>
    intro hsel j h hget
    rw [select_last_cons] at hsel
    cases hrest : select_last k rest with
    | error e =>
      rw [hrest] at hsel
      have h3 : (Except.error e : Except Err (Option (ℕ × ℚ))) = .ok none := hsel
      simp at h3
    | ok o =>
      rw [hrest] at hsel
      cases o with
      | some p =>
        obtain ⟨i0, g0⟩ := p
        have h3 : (Except.ok (some (i0 + 1, g0)) : Except Err (Option (ℕ × ℚ)))
            = .ok none := hsel
        simp at h3
      | none =>
        cases sc with
        | num g1 =>
          have h3 : (if g1 ≤ k then (Except.ok (some (0, g1)) : Except Err (Option (ℕ × ℚ)))
              else .ok none) = .ok none := hsel
          by_cases hg1 : g1 ≤ k
          · rw [if_pos hg1] at h3; simp at h3
          · cases j with
            | zero =>
              have heq : Scale.num g1 = Scale.num h := by simpa using hget
              injection heq with hh
              rw [← hh]
              exact lt_of_not_le hg1
            | succ j0 => exact ih hrest j0 h (by simpa using hget)
        | period =>
          have h3 : (Except.error
              (Err.typeError "not supported between instances of float and str") :
              Except Err (Option (ℕ × ℚ))) = .ok none := hsel
          simp at h3

/-- Units after the index of a successful search result compare strictly
above the searched value: the search picks the last qualifying unit. -/
lemma select_last_max (k : ℚ) :
    ∀ (l : List Scale) (i : ℕ) (g : ℚ),
      select_last k l = .ok (some (i, g)) →
      ∀ j h, i < j → l.get? j = some (.num h) → k < h := by
  intro l
  induction l with
  | nil =>
    intro i g hsel
    have h3 : (Except.ok none : Except Err (Option (ℕ × ℚ))) = .ok (some (i, g)) := hsel
    simp at h3
  | cons sc rest ih =>
    intro i g hsel j h hij hget
    rw [select_last_cons] at hsel
    cases hrest : select_last k rest with
    | error e =>
      rw [hrest] at hsel
      have h3 : (Except.error e : Except Err (Option (ℕ × ℚ))) = .ok (some (i, g)) := hsel
      simp at h3
    | ok o =>
      rw [hrest] at hsel
      cases o with
      | some p =>
        obtain ⟨i0, g0⟩ := p
        have h3 : (Except.ok (some (i0 + 1, g0)) : Except Err (Option (ℕ × ℚ)))
            = .ok (some (i, g)) := hsel
        simp only [Except.ok.injEq, Option.some.injEq, Prod.mk.injEq] at h3
        obtain ⟨hi, hg⟩ := h3
        subst hi; subst hg
        cases j with
        | zero => omega
        | succ j0 =>
          exact ih i0 g0 hrest j0 h (by omega) (by simpa using hget)
      | none =>
        cases sc with
        | num g1 =>
          have h3 : (if g1 ≤ k then (Except.ok (some (0, g1)) : Except Err (Option (ℕ × ℚ)))
              else .ok none) = .ok (some (i, g)) := hsel
          by_cases hg1 : g1 ≤ k
          · rw [if_pos hg1] at h3
            simp only [Except.ok.injEq, Option.some.injEq, Prod.mk.injEq] at h3
            obtain ⟨hi, hg⟩ := h3
            subst hi; subst hg
            cases j with
            | zero => omega
            | succ j0 =>
              exact select_last_none_gt k rest hrest j0 h (by simpa using hget)
          · rw [if_neg hg1] at h3
            simp at h3
        | period =>
          have h3 : (Except.error
              (Err.typeError "not supported between instances of float and str") :
              Except Err (Option (ℕ × ℚ))) = .ok (some (i, g)) := hsel
          simp at h3

/-- The value setter search never raises on an all numeric scale table. -/
lemma select_last_num_total (k : ℚ) :
    ∀ (qs : List ℚ), ∃ r, select_last k (qs.map Scale.num) = .ok r := by
  intro qs
  induction qs with
  | nil => exact ⟨none, rfl⟩
  | cons q rest ih =>
    obtain ⟨r0, hr0⟩ := ih
    cases r0 with
    | some p =>
      obtain ⟨i0, g0⟩ := p
      refine ⟨some (i0 + 1, g0), ?_⟩
      rw [List.map_cons, select_last_cons, hr0]
    | none =>
      by_cases hq : q ≤ k
      · refine ⟨some (0, q), ?_⟩
        rw [List.map_cons, select_last_cons, hr0]
        show (if q ≤ k then (Except.ok (some (0, q)) : Except Err (Option (ℕ × ℚ)))
            else .ok none) = _
        rw [if_pos hq]
      · refine ⟨none, ?_⟩
        rw [List.map_cons, select_last_cons, hr0]
        show (if q ≤ k then (Except.ok (some (0, q)) : Except Err (Option (ℕ × ℚ)))
            else .ok none) = _
        rw [if_neg hq]

/-- Claim C7, amended.  When the sample period pseudo unit (the period
sentinel of the time units table) is the indexed unit and the caller
supplied no sampling frequency, SiValue._units_scale evaluates 1 divided
by None and raises TypeError; nothing in SiValue catches or logs it, so
the error propagates instead of the input being dropped. -/
theorem c7_units_scale_raises_type_error (st : SiValueState) (index : Int)
    (us : List (String × Scale)) (j : ℕ) (lbl : String)
    (hus : units_enum st = .ok (some us))
    (hidx : py_index us index = some (j, (lbl, Scale.period)))
    (hsf : st.sampling_frequency = none) :
    units_scale st index
      = .error (.typeError "unsupported operand types for division: int and NoneType") := by
  simp only [units_scale, hus, hidx, hsf]

/-- Witness for claim C7 at a concrete input: a time SiValue constructed
without sampling frequency, evaluated at the samples unit index 0. -/
theorem c7_units_scale_witness :
    units_scale si_time_nosf 0
      = .error (.typeError "unsupported operand types for division: int and NoneType") :=
  c7_units_scale_raises_type_error si_time_nosf 0 time_units 0 "samples"
    (by decide) (by decide) (by decide)

/-- Claim C3, amended.  The round trip through the SiValue value setter and
getter is exact (hence within any tolerance) precisely on the values the
display can represent: when the setter selects a unit of scale g and the
display value k divided by g is a multiple of the decimal step of the
spin box and lies inside the spin box range, the getter returns k.
Outside this set the display rounding to float_digits decimals or the
range clamping perturbs the value (see the counterexample), so the claimed
1e-9 relative tolerance over each whole unit range does not hold. -/
theorem c3_roundtrip_exact_on_representable (st : SiValueState) (k : ℚ)
    (us : List (String × Scale)) (i : ℕ) (g : ℚ) (m : ℕ)
    (hus : units_enum st = .ok (some us))
    (hsel : select_last k (us.map Prod.snd) = .ok (some (i, g)))
    (hg : 0 < g)
    (hm : k = (m : ℚ) / 10 ^ st.spin.decimals * g)
    (hlo : st.spin.lo ≤ 0)
    (hhi : (m : ℚ) / 10 ^ st.spin.decimals ≤ st.spin.hi) :
    (value_set st k).bind value_get = .ok k := by
  obtain ⟨hgi, hgk⟩ := select_last_get k (us.map Prod.snd) i g hsel
  obtain ⟨lbl, hp⟩ : ∃ lbl, us.get? i = some (lbl, Scale.num g) := by
    cases hq : us.get? i with
    | none =>
      rw [List.get?_map, hq] at hgi
      exact absurd hgi (by simp)
    | some p =>
      obtain ⟨l1, s1⟩ := p
      rw [List.get?_map, hq] at hgi
      have h3 : some s1 = some (Scale.num g) := by simpa using hgi
      injection h3 with h4
      exact ⟨l1, by rw [h4]⟩
  have hpy : py_index us (i : Int) = some (i, (lbl, Scale.num g)) := by
    unfold py_index
    rw [if_pos (Int.natCast_nonneg i)]
    have ht : ((i : Int)).toNat = i := by simp
    rw [ht, hp]
    rfl
  simp only [value_set, hus, hsel]
  simp only [Except.bind]
  unfold value_get value_from_index
  rw [units_scale_eq_of
    { st with
      spin := spin_set_value (spin_set_value st.spin 0) (k / g),
      units_index := (i : Int), units_prev := some (i : Int) } st (i : Int)
    rfl rfl rfl]
  simp only [units_scale, hus, hpy]
  simp only [Except.map]
  have hd : k / g = (m : ℚ) / 10 ^ st.spin.decimals := by
    rw [hm]
    field_simp
    ring
  have hval : (spin_set_value (spin_set_value st.spin 0) (k / g)).value
      = (m : ℚ) / 10 ^ st.spin.decimals := by
    simp only [spin_set_value]
    rw [hd, round_dec_exact]
    exact clampQ_id _ _ _ (le_trans hlo (by positivity)) hhi
  rw [hval]
  exact congrArg Except.ok (by rw [hm]; ring)

/-- Witness for claim C3 at a concrete input: a current SiValue and the
base value 2.5e-3, which the setter displays as 2.5 mA exactly. -/
theorem c3_roundtrip_witness :
    (value_set si_current (1 / 400)).bind value_get = .ok (1 / 400) :=
  c3_roundtrip_exact_on_representable si_current (1 / 400) current_units 2 (1e-3) 250
    (by decide) (by decide) (by decide) (by decide) (by decide) (by decide)

/-- Claim C9, counterexample.  The claim states that after a unit change the
new displayed number equals the old displayed number multiplied by the
ratio of the old to the new unit scale.  It is false when the converted
number exceeds the spin box range: a current SiValue displaying 10 A,
switched to nanoamperes, should display 1e10 but the spin box clamps to
its maximum 1e9, so the base value collapses from 10 to 1. -/
theorem c9_unit_change_clamps :
    (((value_set si_current 10).bind
        (fun s2 => user_select_units s2 0)).map
        (fun s2 => s2.spin.value) = .ok 1e9)
    ∧ ((1e9 : ℚ) ≠ 10 * 1 / 1e-9)
    ∧ (((value_set si_current 10).bind
        (fun s2 => user_select_units s2 0)).bind value_get = .ok 1)
    ∧ ((1 : ℚ) ≠ 10) := by
  exact ⟨by decide, by decide, by decide, by decide⟩

/-- Outcome of SiValue._on_units_change when the previous index and both
unit scales resolve: the spin box is set to the base value (previous
scale times displayed number) divided by the new scale. -/
lemma on_units_change_eq (st1 : SiValueState) (p : Int) (gP gN : ℚ)
    (hprev1 : st1.units_prev = some p)
    (hp : units_scale st1 p = .ok gP)
    (hn : units_scale st1 st1.units_index = .ok gN) :
    on_units_change st1 = .ok
      { st1 with
        spin := spin_set_value st1.spin ((gP * st1.spin.value) / gN),
        units_prev := some st1.units_index } := by
  unfold on_units_change value_from_index
  rw [hprev1]
  simp only [hp, hn, Except.map, Except.bind]
  rfl

/-- Claim C9, amended.  Changing the displayed unit preserves the base value
only up to the display precision and only when the converted display
number fits in the spin box range: when the new unit at the chosen index
has numeric scale gNew and the converted display value lies inside the
spin box range, the unit change stores the converted value rounded to the
spin box decimals, so the new base value differs from the old one by at
most half a display step times the new scale.  Outside the range the spin
box clamps and the base value is not preserved (see the counterexample). -/
theorem c9_unit_change_preserves_value (st : SiValueState) (idx : ℕ)
    (us : List (String × Scale)) (lbl : String) (gOld gNew : ℚ)
    (hus : units_enum st = .ok (some us))
    (hprev : st.units_prev = some st.units_index)
    (hold : units_scale st st.units_index = .ok gOld)
    (hnew : us.get? idx = some (lbl, .num gNew))
    (hgNew : 0 < gNew)
    (hne : (idx : Int) ≠ st.units_index)
    (hlo : st.spin.lo ≤ st.spin.value * gOld / gNew)
    (hhi : st.spin.value * gOld / gNew ≤ st.spin.hi) :
    ((user_select_units st idx).map (fun s2 => s2.units_index) = .ok (idx : Int))
    ∧ |res_spin_value (user_select_units st idx) * gNew - st.spin.value * gOld|
        ≤ 1 / 2 * (1 / 10 ^ st.spin.decimals) * gNew := by
  have hpy2 : py_index us (idx : Int) = some (idx, (lbl, Scale.num gNew)) := by
    unfold py_index
    rw [if_pos (Int.natCast_nonneg idx)]
    have ht : ((idx : Int)).toNat = idx := by simp
    rw [ht, hnew]
    rfl
  have hsc_new : units_scale st (idx : Int) = .ok gNew := by
    simp only [units_scale, hus, hpy2]
  have hres : user_select_units st idx = .ok
      { st with
        units_index := (idx : Int),
        spin := spin_set_value st.spin ((gOld * st.spin.value) / gNew),
        units_prev := some (idx : Int) } := by
    unfold user_select_units
    rw [if_neg hne]
    rw [on_units_change_eq { st with units_index := (idx : Int) } st.units_index gOld gNew
      hprev
      (by rw [units_scale_eq_of { st with units_index := (idx : Int) } st st.units_index
        rfl rfl rfl]; exact hold)
      (show units_scale { st with units_index := (idx : Int) } (idx : Int) = .ok gNew by
        rw [units_scale_eq_of { st with units_index := (idx : Int) } st (idx : Int)
          rfl rfl rfl]; exact hsc_new)]
  constructor
  · rw [hres]
    rfl
  · rw [hres]
    unfold res_spin_value
    simp only [spin_set_value]
    have hc2 : gOld * st.spin.value / gNew = st.spin.value * gOld / gNew := by ring
    rw [hc2]
    have hb1 := clampQ_close st.spin.lo st.spin.hi (st.spin.value * gOld / gNew)
      (round_dec (st.spin.value * gOld / gNew) st.spin.decimals) hlo hhi
    have hb2 := round_dec_close (st.spin.value * gOld / gNew) st.spin.decimals
    have hb3 := le_trans hb1 hb2
    have hcg : st.spin.value * gOld / gNew * gNew = st.spin.value * gOld := by
      field_simp
    calc |clampQ st.spin.lo st.spin.hi
            (round_dec (st.spin.value * gOld / gNew) st.spin.decimals) * gNew
          - st.spin.value * gOld|
        = |(clampQ st.spin.lo st.spin.hi
            (round_dec (st.spin.value * gOld / gNew) st.spin.decimals)
          - st.spin.value * gOld / gNew) * gNew| := by
          rw [sub_mul, hcg]
      _ = |clampQ st.spin.lo st.spin.hi
            (round_dec (st.spin.value * gOld / gNew) st.spin.decimals)
          - st.spin.value * gOld / gNew| * |gNew| := abs_mul _ _
      _ = |clampQ st.spin.lo st.spin.hi
            (round_dec (st.spin.value * gOld / gNew) st.spin.decimals)
          - st.spin.value * gOld / gNew| * gNew := by
          rw [abs_of_pos hgNew]
      _ ≤ 1 / 2 * (1 / 10 ^ st.spin.decimals) * gNew :=
          mul_le_mul_of_nonneg_right hb3 (le_of_lt hgNew)

/-- Witness for claim C9 at a concrete input: a current SiValue showing
1 A, switched to milliamperes (index 2). -/
theorem c9_unit_change_witness :
    ((user_select_units si_current 2).map (fun s2 => s2.units_index) = .ok (2 : Int))
    ∧ |res_spin_value (user_select_units si_current 2) * 1e-3
        - si_current.spin.value * 1|
        ≤ 1 / 2 * (1 / 10 ^ si_current.spin.decimals) * 1e-3 :=
  c9_unit_change_preserves_value si_current 2 current_units "mA" 1 (1e-3)
    (by decide) (by decide) (by decide) (by decide) (by decide) (by decide)
    (by decide) (by decide)

/-- Claim C8: a user selection change on a Section combo box runs only
Section._on_content_change, which touches widget visibility alone; every
variant widget state is preserved, and the serialized settings afterwards
carry the new __selected__ tag alongside the unchanged settings of all
variants. -/
theorem c8_selection_change_preserves_variants (sec : SectionState) (idx : ℕ)
    (t0 : SVal) (pairs : List (String × SVal))
    (hc : idx < sec.content.length)
    (hne : (idx : Int) ≠ sec.combo_index)
    (hget : section_settings_get sec
      = .ok (SVal.d (("__selected__", t0) :: pairs))) :
    ((user_section_select sec idx).map SectionState.content = .ok sec.content)
    ∧ ((user_section_select sec idx).bind section_settings_get
        = .ok (SVal.d (("__selected__", SVal.s (combo_text sec.items (idx : Int)))
            :: pairs))) := by
  have hpyc : py_index sec.content (idx : Int)
      = some (idx, sec.content.get ⟨idx, hc⟩) := by
    unfold py_index
    rw [if_pos (Int.natCast_nonneg idx)]
    have ht : ((idx : Int)).toNat = idx := by simp
    rw [ht, List.get?_eq_get hc]
    rfl
  have hres : user_section_select sec idx = .ok
      { sec with
        combo_index := (idx : Int), active_variant := some idx,
        change_count := sec.change_count + 1 } := by
    unfold user_section_select
    rw [if_neg hne]
    unfold section_content_change
    simp only [hpyc]
  obtain ⟨ps, hps, hpairs⟩ : ∃ ps, section_pairs sec.content = .ok ps ∧ ps = pairs := by
    unfold section_settings_get at hget
    cases hmm : section_pairs sec.content with
    | error e => rw [hmm] at hget; simp [Except.map] at hget
    | ok ps =>
      rw [hmm] at hget
      simp only [Except.map, Except.ok.injEq, SVal.d.injEq, List.cons.injEq,
        Prod.mk.injEq] at hget
      exact ⟨ps, rfl, hget.2⟩
  subst hpairs
  constructor
  · rw [hres]
    rfl
  · rw [hres]
    simp only [Except.bind]
    unfold section_settings_get
    simp only []
    rw [hps]
    rfl

/-- Witness for claim C8 at a concrete input: the stop section of a freshly
built Trigger, switching the selection from wait (index 0) to edge
(index 1). -/
theorem c8_selection_witness :
    ((user_section_select stop_section 1).map SectionState.content
      = .ok stop_section.content)
    ∧ ((user_section_select stop_section 1).bind section_settings_get
        = .ok (SVal.d (("__selected__", SVal.s (combo_text stop_section.items (1 : Int)))
            :: (match section_settings_get stop_section with
                | .ok (.d (_ :: ps)) => ps
                | _ => [])))) :=
  c8_selection_change_preserves_variants stop_section 1 (SVal.s "wait")
    (match section_settings_get stop_section with
     | .ok (.d (_ :: ps)) => ps
     | _ => [])
    (by decide) (by decide) (by rfl)

/-- Membership in the qualifying index list of the specification function. -/
lemma spec_qualifying_mem (qs : List ℚ) (k : ℚ) (a : ℕ) :
    (a ∈ (List.range qs.length).filter (fun i => decide (qs.getD i 0 ≤ k)))
      ↔ a < qs.length ∧ qs.getD a 0 ≤ k := by
  simp [List.mem_filter, List.mem_range]

/-- When the source search finds nothing, the specification also names no
unit: every scale is above the value. -/
lemma spec_of_select_none (k : ℚ) (qs : List ℚ)
    (h : select_last k (qs.map Scale.num) = .ok none) :
    spec_largest_unit_index qs k = none := by
  unfold spec_largest_unit_index
  rw [List.max?_eq_none_iff, List.filter_eq_nil_iff]
  intro a ha
  rw [List.mem_range] at ha
  simp only [decide_eq_true_eq]
  intro hle
  have h1 : qs.get? a = some (qs.get ⟨a, ha⟩) := List.get?_eq_get ha
  have h2 : qs.getD a 0 = qs.get ⟨a, ha⟩ := by
    rw [List.getD_eq_get?, h1]
    rfl
  have hget : (qs.map Scale.num).get? a = some (.num (qs.get ⟨a, ha⟩)) := by
    rw [List.get?_map, h1]
    rfl
  rw [h2] at hle
  exact absurd hle (not_le_of_lt (select_last_none_gt k (qs.map Scale.num) h a _ hget))

/-- When the source search selects a unit, the specification names the same
index, and the index carries the returned scale. -/
lemma spec_of_select_some (k : ℚ) (qs : List ℚ) (i : ℕ) (g : ℚ)
    (h : select_last k (qs.map Scale.num) = .ok (some (i, g))) :
    spec_largest_unit_index qs k = some i ∧ qs.get? i = some g := by
  obtain ⟨hgi, hgk⟩ := select_last_get k (qs.map Scale.num) i g h
  have hilen : i < qs.length := by
    by_contra hge
    rw [List.get?_map, List.get?_eq_none.mpr (le_of_not_lt hge)] at hgi
    exact absurd hgi (by simp)
  have h1 : qs.get? i = some (qs.get ⟨i, hilen⟩) := List.get?_eq_get hilen
  have hne : qs.get ⟨i, hilen⟩ = g := by
    rw [List.get?_map, h1] at hgi
    have h3 : some (Scale.num (qs.get ⟨i, hilen⟩)) = some (Scale.num g) := by
      simpa using hgi
    injection h3 with h4
    injection h4
  constructor
  · unfold spec_largest_unit_index
    rw [List.max?_eq_some_iff (fun a => Nat.le_refl a) max_choice
      (fun a b c => max_le_iff)]
    constructor
    · rw [spec_qualifying_mem]
      refine ⟨hilen, ?_⟩
      rw [List.getD_eq_get?, h1]
      simp only [Option.getD_some]
      rw [hne]
      exact hgk
    · intro b hb
      rw [spec_qualifying_mem] at hb
      obtain ⟨hb1, hb2⟩ := hb
      by_contra hbi
      have hib : i < b := Nat.lt_of_not_le hbi
      have hbget : qs.get? b = some (qs.get ⟨b, hb1⟩) := List.get?_eq_get hb1
      have hgetb : (qs.map Scale.num).get? b = some (.num (qs.get ⟨b, hb1⟩)) := by
        rw [List.get?_map, hbget]
        rfl
      have hlt := select_last_max k (qs.map Scale.num) i g h b _ hib hgetb
      rw [List.getD_eq_get?, hbget] at hb2
      simp only [Option.getD_some] at hb2
      exact absurd hb2 (not_le_of_lt hlt)
  · rw [h1, hne]

/-- Claim C4, amended.  On a sorted all numeric unit table, the SiValue
value setter (searching the scales in descending index order) selects
exactly the unit named by the specification function: the one of maximal
index, hence of the largest scale that is at most the base value.  When
the base value is below every scale, no unit is selected: the combo box
keeps its previous unit (it does not fall back to the smallest unit) and
the displayed number is set to 0. -/
theorem c4_value_set_selects_largest (st : SiValueState) (k : ℚ)
    (us : List (String × Scale)) (qs : List ℚ)
    (hus : units_enum st = .ok (some us))
    (hqs : us.map Prod.snd = qs.map Scale.num)
    (hsorted : List.Sorted (· ≤ ·) qs)
    (hlo : st.spin.lo ≤ 0) (hhi : (0 : ℚ) ≤ st.spin.hi) :
    ((value_set st k).map SiValueState.units_index
      = .ok (match spec_largest_unit_index qs k with
             | some j => (j : Int)
             | none => st.units_index))
    ∧ (spec_largest_unit_index qs k = none →
        (value_set st k).map (fun s2 => s2.spin.value) = .ok 0)
    ∧ (∀ j, spec_largest_unit_index qs k = some j →
        ∀ i2 g2, qs.get? i2 = some g2 → g2 ≤ k → g2 ≤ qs.getD j 0) := by
  obtain ⟨r, hr⟩ := select_last_num_total k qs
  have hr2 : select_last k (us.map Prod.snd) = .ok r := by
    rw [hqs]
    exact hr
  cases r with
  | none =>
    have hspec := spec_of_select_none k qs hr
    refine ⟨?_, ?_, ?_⟩
    · simp only [value_set, hus, hr2, hspec, Except.map]
    · intro _
      simp only [value_set, hus, hr2, Except.map]
      simp only [spin_set_value]
      rw [round_dec_zero, clampQ_id _ _ _ hlo hhi]
    · intro j hj
      rw [hspec] at hj
      exact Option.noConfusion hj
  | some p =>
    obtain ⟨i, g⟩ := p
    obtain ⟨hspec, hqi⟩ := spec_of_select_some k qs i g hr
    refine ⟨?_, ?_, ?_⟩
    · simp only [value_set, hus, hr2, hspec, Except.map]
    · intro hnone
      rw [hspec] at hnone
      exact Option.noConfusion hnone
    · intro j hj i2 g2 hg2 hle
      rw [hspec] at hj
      injection hj with hj2
      rw [← hj2]
      have hdi : qs.getD i 0 = g := by
        rw [List.getD_eq_get?, hqi]
        rfl
      rw [hdi]
      obtain ⟨hi2len, hi2get⟩ := List.get?_eq_some.mp hg2
      obtain ⟨hilen, higet⟩ := List.get?_eq_some.mp hqi
      rcases le_or_lt i2 i with hle2 | hlt2
      · rcases eq_or_lt_of_le hle2 with heq | hlt
        · subst heq
          rw [hg2] at hqi
          injection hqi with h5
          exact le_of_eq h5
        · have hfin := hsorted.rel_get_of_lt
            (a := ⟨i2, hi2len⟩) (b := ⟨i, hilen⟩) (Fin.mk_lt_mk.mpr hlt)
          rw [hi2get, higet] at hfin
          exact hfin
      · have hgetb : (qs.map Scale.num).get? i2 = some (.num g2) := by
          rw [List.get?_map, hg2]
          rfl
        have hklt := select_last_max k (qs.map Scale.num) i g hr i2 g2 hlt2 hgetb
        exact absurd hle (not_le_of_lt hklt)

/-- Witness for claim C4 at a concrete input: a current SiValue and the
base value 5e-3, for which the specification names index 2 (mA). -/
theorem c4_selection_witness :
    ((value_set si_current (1 / 200)).map SiValueState.units_index
      = .ok (match spec_largest_unit_index [1e-9, 1e-6, 1e-3, 1] (1 / 200) with
             | some j => (j : Int)
             | none => si_current.units_index))
    ∧ (spec_largest_unit_index [1e-9, 1e-6, 1e-3, 1] (1 / 200) = none →
        (value_set si_current (1 / 200)).map (fun s2 => s2.spin.value) = .ok 0)
    ∧ (∀ j, spec_largest_unit_index [1e-9, 1e-6, 1e-3, 1] (1 / 200) = some j →
        ∀ i2 g2, ([1e-9, 1e-6, 1e-3, 1] : List ℚ).get? i2 = some g2 → g2 ≤ 1 / 200 →
          g2 ≤ ([1e-9, 1e-6, 1e-3, 1] : List ℚ).getD j 0) :=
  c4_value_set_selects_largest si_current (1 / 200) current_units
    [1e-9, 1e-6, 1e-3, 1]
    (by decide) (by decide) (by decide) (by decide) (by decide)

end PyJouleTrig
